import Mathlib

/-
Verification of the Snowflake financial data-warehouse backend
(src/backend/server.py): a shallow embedding of the sample-data
generator `generate_sample_data` and of the `SnowflakeManager`
connection gateway, together with proofs of the specified properties.

Randomness model: every call into the `random` / `faker` libraries
consumes one value from an abstract infinite stream of naturals.
`random.randint(a, b)` maps the drawn value into [a, b] by modulus;
`random.choice(xs)` indexes `xs` by the drawn value mod its length and
fails (Python IndexError) on an empty list; opaque faker outputs
(names, addresses, dates, uuids) are represented by the raw drawn
value. Failure anywhere (an uncaught IndexError) makes the embedded
function return `none`.
-/

namespace Snowflake

/-- The seedable random source: an infinite stream of naturals and a
current position. -/
structure RNG where
  stream : Nat → Nat
  pos : Nat

/-- Draw one value and advance the stream. -/
def RNG.next (g : RNG) : Nat × RNG :=
  (g.stream g.pos, { stream := g.stream, pos := g.pos + 1 })

/-- Embeds `random.randint(lo, hi)`: an integer in [lo, hi]. -/
def randint (lo hi : Nat) (g : RNG) : Nat × RNG :=
  let p := g.next
  (lo + p.1 % (hi - lo + 1), p.2)

/-- Embeds `round(random.uniform(lo, hi), 2)`: a value in [lo, hi]
drawn from the stream; the two-decimal fraction is abstracted away. -/
def uniform2 (lo hi : Nat) (g : RNG) : Nat × RNG :=
  let p := g.next
  (lo + p.1 % (hi - lo + 1), p.2)

/-- Embeds `random.choice(xs)` for the constant non-empty string lists
of the source; on those lists the default branch is unreachable. -/
def chooseStr (xs : List String) (g : RNG) : String × RNG :=
  let p := g.next
  (xs.getD (p.1 % xs.length) "", p.2)

/-- Embeds `random.choice(xs)` on a possibly-empty list: `none` models
the IndexError Python raises when `xs` is empty. -/
def randchoice {α : Type} (xs : List α) (g : RNG) : Option (α × RNG) :=
  let p := g.next
  match xs[p.1 % xs.length]? with
  | some a => some (a, p.2)
  | none => none

/-- Customer record as built by `generate_sample_data` (opaque faker
fields are stream draws). -/
structure Customer where
  customer_id : Nat
  first_name : Nat
  last_name : Nat
  email : Nat
  phone : Nat
  address : Nat
  city : Nat
  state : Nat
  zip_code : Nat
  date_of_birth : Nat
  account_opening_date : Nat
  risk_score : Nat
deriving DecidableEq

/-- Merchant record as built by `generate_sample_data`. -/
structure Merchant where
  merchant_id : Nat
  merchant_name : Nat
  merchant_category : String
  address : Nat
  city : Nat
  state : Nat
  zip_code : Nat
  phone : Nat
  email : Nat
deriving DecidableEq

/-- Account record as built by `generate_sample_data`. -/
structure Account where
  account_id : Nat
  customer_id : Nat
  account_type : String
  account_number : Nat
  balance : Nat
  opening_date : Nat
  status : String
deriving DecidableEq

/-- Transaction record as built by `generate_sample_data`; the
description is the pair (merchant name, faker text). -/
structure Transaction where
  transaction_id : Nat
  customer_id : Nat
  merchant_id : Nat
  account_id : Nat
  amount : Nat
  transaction_type : String
  category : String
  description : Nat × Nat
  transaction_date : Nat
  status : String
deriving DecidableEq

/-- The four ordered sequences returned by `generate_sample_data`. -/
structure Dataset where
  customers : List Customer
  merchants : List Merchant
  accounts : List Account
  transactions : List Transaction
deriving DecidableEq

def merchant_categories : List String :=
  ["Restaurant", "Grocery", "Gas Station", "Retail", "Online", "Pharmacy", "Entertainment"]

def account_types : List String :=
  ["checking", "savings", "credit"]

def transaction_types : List String :=
  ["purchase", "withdrawal", "deposit", "transfer", "payment"]

def tx_categories : List String :=
  ["Food & Dining", "Shopping", "Transportation", "Bills", "Entertainment", "Healthcare", "Travel"]

def status_choices : List String :=
  ["completed", "pending", "failed"]

/-- One Customer dict of the generator: uuid, nine faker draws, then
`risk_score = random.randint(10, 90)`. -/
def genCustomer (g : RNG) : Customer × RNG :=
  let cid := g.next
  let fn := cid.2.next
  let ln := fn.2.next
  let em := ln.2.next
  let ph := em.2.next
  let ad := ph.2.next
  let ci := ad.2.next
  let st := ci.2.next
  let zi := st.2.next
  let dob := zi.2.next
  let aod := dob.2.next
  let rs := randint 10 90 aod.2
  ({ customer_id := cid.1, first_name := fn.1, last_name := ln.1, email := em.1,
     phone := ph.1, address := ad.1, city := ci.1, state := st.1, zip_code := zi.1,
     date_of_birth := dob.1, account_opening_date := aod.1, risk_score := rs.1 }, rs.2)

/-- The `for _ in range(num_customers)` loop. -/
def genCustomers : Nat → RNG → List Customer × RNG
  | 0, g => ([], g)
  | n + 1, g =>
    let p := genCustomer g
    let q := genCustomers n p.2
    (p.1 :: q.1, q.2)

/-- One Merchant dict: uuid, company, `random.choice(merchant_categories)`,
then six more faker draws. -/
def genMerchant (g : RNG) : Merchant × RNG :=
  let mid := g.next
  let nm := mid.2.next
  let cat := chooseStr merchant_categories nm.2
  let ad := cat.2.next
  let ci := ad.2.next
  let st := ci.2.next
  let zi := st.2.next
  let ph := zi.2.next
  let em := ph.2.next
  ({ merchant_id := mid.1, merchant_name := nm.1, merchant_category := cat.1,
     address := ad.1, city := ci.1, state := st.1, zip_code := zi.1,
     phone := ph.1, email := em.1 }, em.2)

/-- The `for _ in range(num_merchants)` loop. -/
def genMerchants : Nat → RNG → List Merchant × RNG
  | 0, g => ([], g)
  | n + 1, g =>
    let p := genMerchant g
    let q := genMerchants n p.2
    (p.1 :: q.1, q.2)

/-- The inner `for _ in range(num_accounts)` loop: each Account copies
`customer_id` and `opening_date` from its generating customer. -/
def genAccountsFor (customer : Customer) : Nat → RNG → List Account × RNG
  | 0, g => ([], g)
  | k + 1, g =>
    let aid := g.next
    let ty := chooseStr account_types aid.2
    let num := ty.2.next
    let bal := uniform2 100 50000 num.2
    let a : Account :=
      { account_id := aid.1, customer_id := customer.customer_id, account_type := ty.1,
        account_number := num.1, balance := bal.1,
        opening_date := customer.account_opening_date, status := "active" }
    let q := genAccountsFor customer k bal.2
    (a :: q.1, q.2)

/-- The `for customer in customers` loop: each customer gets
`random.randint(1, 3)` accounts. -/
def genAccounts : List Customer → RNG → List Account × RNG
  | [], g => ([], g)
  | c :: cs, g =>
    let k := randint 1 3 g
    let p := genAccountsFor c k.1 k.2
    let q := genAccounts cs p.2
    (p.1 ++ q.1, q.2)

/-- One Transaction dict: choose a customer, a merchant, then an
account from the chosen customer's own accounts, falling back to
`accounts[0]` when that customer has none; then the remaining draws in
source order (uuid, amount, type, category, text, date, status). -/
def genTransaction (customers : List Customer) (merchants : List Merchant)
    (accounts : List Account) (g : RNG) : Option (Transaction × RNG) :=
  match randchoice customers g with
  | none => none
  | some (customer, g1) =>
    match randchoice merchants g1 with
    | none => none
    | some (merchant, g2) =>
      let customer_accounts :=
        accounts.filter (fun acc => acc.customer_id == customer.customer_id)
      let accRes : Option (Account × RNG) :=
        if customer_accounts.isEmpty then
          accounts.head?.map (fun a0 => (a0, g2))
        else
          randchoice customer_accounts g2
      match accRes with
      | none => none
      | some (account, g3) =>
        let tid := g3.next
        let amt := uniform2 5 2000 tid.2
        let ty := chooseStr transaction_types amt.2
        let cat := chooseStr tx_categories ty.2
        let txt := cat.2.next
        let tdate := txt.2.next
        let r := tdate.2.next
        let st :=
          if r.1 % 10 == 0 then chooseStr status_choices r.2 else ("completed", r.2)
        some ({ transaction_id := tid.1, customer_id := customer.customer_id,
                merchant_id := merchant.merchant_id, account_id := account.account_id,
                amount := amt.1, transaction_type := ty.1, category := cat.1,
                description := (merchant.merchant_name, txt.1), transaction_date := tdate.1,
                status := st.1 }, st.2)

/-- The `for _ in range(num_transactions)` loop; `none` propagates a
failed choice (IndexError). -/
def genTransactions (customers : List Customer) (merchants : List Merchant)
    (accounts : List Account) : Nat → RNG → Option (List Transaction × RNG)
  | 0, g => some ([], g)
  | n + 1, g =>
    match genTransaction customers merchants accounts g with
    | none => none
    | some (t, g1) =>
      match genTransactions customers merchants accounts n g1 with
      | none => none
      | some (ts, g2) => some (t :: ts, g2)

/-- Embeds `generate_sample_data(num_customers, num_merchants,
num_transactions)`: customers, merchants, accounts, transactions in
that order; `none` models an uncaught IndexError. -/
def generate_sample_data (num_customers num_merchants num_transactions : Nat)
    (g : RNG) : Option (Dataset × RNG) :=
  let pc := genCustomers num_customers g
  let pm := genMerchants num_merchants pc.2
  let pa := genAccounts pc.1 pm.2
  match genTransactions pc.1 pm.1 pa.1 num_transactions pa.2 with
  | none => none
  | some (ts, gf) =>
    some ({ customers := pc.1, merchants := pm.1, accounts := pa.1,
            transactions := ts }, gf)

/-! ## Warehouse gateway (`SnowflakeManager` and the HTTP routes)

The external driver (`snowflake.connector`, `write_pandas`) is a
parameter: an oracle that either yields a result or raises, modelled
as `Except String _`. Every gateway operation additionally returns the
list of calls it forwarded to the driver, so that "never forwards" and
"forwards verbatim" are provable statements. -/

/-- The `SnowflakeConnection` pydantic model. -/
structure SnowflakeConnection where
  account : String
  username : String
  password : String
  warehouse : String
  database : String
  schema : String
deriving DecidableEq

/-- An `HTTPException(status_code, detail)`. -/
structure HTTPErr where
  status_code : Nat
  detail : String
deriving DecidableEq

/-- Result of a successful cursor execution: `cursor.description`
(None or the column names) and the fetched rows. -/
structure DriverResult where
  description : Option (List String)
  rows : List (List Nat)
deriving DecidableEq

/-- The external driver for `cursor.execute` + `fetchall`: an
exception is an `Except.error` carrying `str(e)`. -/
def Driver (C : Type) := C → String → Except String DriverResult

/-- The external `write_pandas(conn, df, table, if_exists, ...)`
facility, yielding `(success, nchunks, nrows)`. -/
def Writer (C D : Type) := C → D → String → String → Except String (Bool × Nat × Nat)

/-- The gateway state: one stored connection handle and the last
parameters handed to `connect`. -/
structure SnowflakeManager (C : Type) where
  connection : Option C
  connection_params : Option SnowflakeConnection

/-- What `SnowflakeManager.execute_query` returns on success. -/
inductive QueryResult where
  | table (columns : List String) (data : List (List Nat))
  | message (text : String)
deriving DecidableEq

/-- Embeds `SnowflakeManager.execute_query(query, fetch_results)`.
The second component lists the SQL strings forwarded to the driver. -/
def SnowflakeManager.execute_query {C : Type} (driver : Driver C)
    (mgr : SnowflakeManager C) (query : String) (fetch_results : Bool) :
    Except HTTPErr QueryResult × List String :=
  match mgr.connection with
  | none => (Except.error { status_code := 400, detail := "No active Snowflake connection" }, [])
  | some conn =>
    match driver conn query with
    | Except.error e =>
        (Except.error { status_code := 400, detail := "Query failed: " ++ e }, [query])
    | Except.ok r =>
        if fetch_results then
          (Except.ok (QueryResult.table (r.description.getD []) r.rows), [query])
        else
          (Except.ok (QueryResult.message "Query executed successfully"), [query])

/-- What `SnowflakeManager.load_dataframe` returns on success. -/
structure LoadResult where
  success : Bool
  chunks : Nat
  rows : Nat
deriving DecidableEq

/-- One forwarded bulk-load call: the table name and mode handed to
`write_pandas`. -/
structure LoadCall where
  table_name : String
  if_exists : String
deriving DecidableEq

/-- Embeds `SnowflakeManager.load_dataframe(df, table_name, if_exists)`.
The second component lists the calls forwarded to `write_pandas`. -/
def SnowflakeManager.load_dataframe {C D : Type} (writer : Writer C D)
    (mgr : SnowflakeManager C) (df : D) (table_name : String) (if_exists : String) :
    Except HTTPErr LoadResult × List LoadCall :=
  match mgr.connection with
  | none => (Except.error { status_code := 400, detail := "No active Snowflake connection" }, [])
  | some conn =>
    match writer conn df table_name if_exists with
    | Except.error e =>
        (Except.error { status_code := 400, detail := "Data load failed: " ++ e },
         [{ table_name := table_name, if_exists := if_exists }])
    | Except.ok (success, nchunks, nrows) =>
        (Except.ok { success := success, chunks := nchunks, rows := nrows },
         [{ table_name := table_name, if_exists := if_exists }])

/-- Embeds `SnowflakeManager.connect(params)`: the source assigns
`self.connection_params = params` before attempting the driver
connection, and on an exception leaves `self.connection` untouched. -/
def SnowflakeManager.connect {C : Type} (driverConnect : SnowflakeConnection → Except String C)
    (mgr : SnowflakeManager C) (params : SnowflakeConnection) :
    Except HTTPErr Bool × SnowflakeManager C :=
  let mgr1 : SnowflakeManager C := { mgr with connection_params := some params }
  match driverConnect params with
  | Except.ok conn => (Except.ok true, { mgr1 with connection := some conn })
  | Except.error e =>
      (Except.error { status_code := 400, detail := "Snowflake connection failed: " ++ e }, mgr1)

/-- Body of the `GET /snowflake/status` route. -/
structure StatusResp where
  status : String
  database : Option String
deriving DecidableEq

/-- Embeds the `snowflake_status` route: if a connection is stored it
reads `connection_params.database` (`none` would be Python raising on
a missing attribute, unreachable because `connect` always stores the
parameters first). -/
def snowflake_status {C : Type} (mgr : SnowflakeManager C) : Option StatusResp :=
  match mgr.connection with
  | some _ =>
      mgr.connection_params.map
        (fun p => { status := "connected", database := some p.database })
  | none => some { status := "disconnected", database := none }

/-- The `QueryRequest` pydantic model (`limit: Optional[int]`). -/
structure QueryRequest where
  sql_query : String
  limit : Option Int
deriving DecidableEq

/-- Python truthiness of `request.limit` in `if request.limit and ...`. -/
def limitTruthy : Option Int → Bool
  | none => false
  | some n => n != 0

/-- Python `str.strip()`: drop whitespace from both ends. -/
def pyStrip (s : String) : String :=
  String.mk (((s.data.dropWhile Char.isWhitespace).reverse.dropWhile Char.isWhitespace).reverse)

/-- Python `str.upper()`: uppercase every character. -/
def pyUpper (s : String) : String :=
  String.mk (s.data.map Char.toUpper)

/-- Whether `pat` is a prefix of `s`. -/
def startsWithChars : List Char → List Char → Bool
  | [], _ => true
  | _ :: _, [] => false
  | p :: ps, c :: cs => p == c && startsWithChars ps cs

/-- Whether `pat` occurs as a contiguous substring of `s`. -/
def containsChars (pat : List Char) : List Char → Bool
  | [] => pat.isEmpty
  | c :: cs => startsWithChars pat (c :: cs) || containsChars pat cs

/-- The route's guard `query.upper().count('LIMIT')` compared with
zero: the count is zero exactly when "LIMIT" does not occur in the
uppercased query, so `not count` is the non-occurrence test. -/
def upperHasLIMIT (q : String) : Bool :=
  containsChars "LIMIT".data (pyUpper q).data

/-- `f" LIMIT {request.limit}"` as appended by the route (only reached
when the limit is truthy, hence present). -/
def limitSuffix : Option Int → String
  | none => ""
  | some n => " LIMIT " ++ toString n

/-- Embeds the `POST /query/execute` route: checks the connection,
strips the caller's SQL, appends a LIMIT clause when a truthy limit is
given and the uppercased query does not contain "LIMIT", then hands
the result to `SnowflakeManager.execute_query` with fetching on. -/
def execute_query_route {C : Type} (driver : Driver C) (mgr : SnowflakeManager C)
    (request : QueryRequest) : Except HTTPErr QueryResult × List String :=
  match mgr.connection with
  | none => (Except.error { status_code := 400, detail := "No active Snowflake connection" }, [])
  | some _ =>
    let query := pyStrip request.sql_query
    let query :=
      if limitTruthy request.limit && !(upperHasLIMIT query) then
        query ++ limitSuffix request.limit
      else query
    SnowflakeManager.execute_query driver mgr query true

/-! ## Concrete fixtures used by witnesses and counterexamples -/

/-- A concrete seeded random source (the all-zero stream). -/
def g0 : RNG := { stream := fun _ => 0, pos := 0 }

def dfltTx : Transaction :=
  { transaction_id := 0, customer_id := 0, merchant_id := 0, account_id := 0,
    amount := 0, transaction_type := "", category := "", description := (0, 0),
    transaction_date := 0, status := "" }

def dfltCustomer : Customer :=
  { customer_id := 0, first_name := 0, last_name := 0, email := 0, phone := 0,
    address := 0, city := 0, state := 0, zip_code := 0, date_of_birth := 0,
    account_opening_date := 0, risk_score := 0 }

def dfltAccount : Account :=
  { account_id := 0, customer_id := 0, account_type := "", account_number := 0,
    balance := 0, opening_date := 0, status := "" }

def emptyDataset : Dataset :=
  { customers := [], merchants := [], accounts := [], transactions := [] }

/-- The concrete run `generate_sample_data(1, 1, 1)` on the seeded
stream, used to instantiate the universally quantified theorems. -/
def demoRun : Dataset × RNG := (generate_sample_data 1 1 1 g0).getD (emptyDataset, g0)

def demoData : Dataset := demoRun.1

def demoTx : Transaction := demoData.transactions.headD dfltTx

def demoAccount : Account := demoData.accounts.headD dfltAccount

def demoCustomer : Customer := demoData.customers.headD dfltCustomer

/-- A driver oracle that accepts every statement. -/
def okDriver : Driver Nat := fun _ _ => Except.ok { description := none, rows := [] }

/-- A bulk-load oracle that accepts every load. -/
def okWriter : Writer Nat Nat := fun _ _ _ _ => Except.ok (true, 1, 1)

def demoParams : SnowflakeConnection :=
  { account := "acct", username := "user", password := "pw",
    warehouse := "COMPUTE_WH", database := "FINANCIAL_DW", schema := "PUBLIC" }

def newParams : SnowflakeConnection :=
  { account := "acct2", username := "user2", password := "pw2",
    warehouse := "WH2", database := "NEW_DB", schema := "PUBLIC" }

/-- A gateway in the Disconnected state. -/
def mgrDisconnected : SnowflakeManager Nat :=
  { connection := none, connection_params := none }

/-- A gateway holding a live session obtained with `demoParams`. -/
def mgrConnected : SnowflakeManager Nat :=
  { connection := some 7, connection_params := some demoParams }

/-- A driver connect oracle that rejects every credential set. -/
def failConnect : SnowflakeConnection → Except String Nat :=
  fun _ => Except.error "bad credentials"

/-! ## Helper lemmas about the random primitives -/

theorem randint_le_fst (lo hi : Nat) (g : RNG) : lo ≤ (randint lo hi g).1 := by
  dsimp [randint, RNG.next]
  exact Nat.le_add_right _ _

theorem randint_fst_le (lo hi : Nat) (g : RNG) (h : lo ≤ hi) :
    (randint lo hi g).1 ≤ hi := by
  dsimp [randint, RNG.next]
  have hm : g.stream g.pos % (hi - lo + 1) < hi - lo + 1 :=
    Nat.mod_lt _ (Nat.succ_pos _)
  omega

theorem randchoice_mem {α : Type} {xs : List α} {g : RNG} {a : α} {g1 : RNG}
    (h : randchoice xs g = some (a, g1)) : a ∈ xs := by
  unfold randchoice RNG.next at h
  dsimp only at h
  split at h
  next b hb =>
    simp only [Option.some.injEq, Prod.mk.injEq] at h
    obtain ⟨rfl, -⟩ := h
    obtain ⟨hlt, rfl⟩ := List.getElem?_eq_some.mp hb
    exact List.getElem_mem hlt
  next => exact absurd h (by simp)

theorem randchoice_total {α : Type} (xs : List α) (g : RNG) (h : xs ≠ []) :
    ∃ a g1, randchoice xs g = some (a, g1) := by
  have hlen : 0 < xs.length := List.length_pos.mpr h
  have hlt : g.stream g.pos % xs.length < xs.length := Nat.mod_lt _ hlen
  refine ⟨xs[g.stream g.pos % xs.length], { stream := g.stream, pos := g.pos + 1 }, ?_⟩
  unfold randchoice RNG.next
  dsimp only
  rw [List.getElem?_eq_getElem hlt]

/-! ## Helper lemmas about the generator loops -/

theorem genCustomers_length (n : Nat) (g : RNG) : ((genCustomers n g).1).length = n := by
  induction n generalizing g with
  | zero => rfl
  | succ n ih => simp [genCustomers, ih]

theorem genMerchants_length (n : Nat) (g : RNG) : ((genMerchants n g).1).length = n := by
  induction n generalizing g with
  | zero => rfl
  | succ n ih => simp [genMerchants, ih]

theorem genCustomer_risk (g : RNG) :
    10 ≤ (genCustomer g).1.risk_score ∧ (genCustomer g).1.risk_score ≤ 90 := by
  have h1 := randint_le_fst 10 90
  have h2 := fun g => randint_fst_le 10 90 g (by norm_num)
  dsimp [genCustomer]
  exact ⟨h1 _, h2 _⟩

theorem genCustomers_risk (n : Nat) (g : RNG) (c : Customer)
    (hc : c ∈ (genCustomers n g).1) :
    10 ≤ c.risk_score ∧ c.risk_score ≤ 90 := by
  induction n generalizing g with
  | zero => simp [genCustomers] at hc
  | succ n ih =>
    simp only [genCustomers, List.mem_cons] at hc
    rcases hc with rfl | h
    · exact genCustomer_risk g
    · exact ih _ h

theorem genAccountsFor_length (c : Customer) (k : Nat) (g : RNG) :
    ((genAccountsFor c k g).1).length = k := by
  induction k generalizing g with
  | zero => rfl
  | succ k ih => simp [genAccountsFor, ih]

theorem genAccountsFor_mem (c : Customer) (k : Nat) (g : RNG) (a : Account)
    (ha : a ∈ (genAccountsFor c k g).1) :
    a.customer_id = c.customer_id ∧ a.opening_date = c.account_opening_date := by
  induction k generalizing g with
  | zero => simp [genAccountsFor] at ha
  | succ k ih =>
    simp only [genAccountsFor, List.mem_cons] at ha
    rcases ha with rfl | h
    · exact ⟨rfl, rfl⟩
    · exact ih _ h

theorem genAccounts_mem (cs : List Customer) (g : RNG) (a : Account)
    (ha : a ∈ (genAccounts cs g).1) :
    ∃ c ∈ cs, a.customer_id = c.customer_id ∧ a.opening_date = c.account_opening_date := by
  induction cs generalizing g with
  | nil => simp [genAccounts] at ha
  | cons c cs ih =>
    simp only [genAccounts, List.mem_append] at ha
    rcases ha with h | h
    · exact ⟨c, List.mem_cons_self c cs, genAccountsFor_mem c _ _ a h⟩
    · obtain ⟨d, hd, hprop⟩ := ih _ h
      exact ⟨d, List.mem_cons_of_mem _ hd, hprop⟩

theorem genAccounts_length (cs : List Customer) (g : RNG) :
    cs.length ≤ ((genAccounts cs g).1).length ∧
    ((genAccounts cs g).1).length ≤ 3 * cs.length := by
  induction cs generalizing g with
  | nil => simp [genAccounts]
  | cons c cs ih =>
    have h1 := randint_le_fst 1 3 g
    have h2 := randint_fst_le 1 3 g (by norm_num)
    have hk := genAccountsFor_length c (randint 1 3 g).1 (randint 1 3 g).2
    have hrec := ih (genAccountsFor c (randint 1 3 g).1 (randint 1 3 g).2).2
    simp only [genAccounts, List.length_append, List.length_cons, hk]
    omega

theorem genTransaction_spec (customers : List Customer) (merchants : List Merchant)
    (accounts : List Account) (g : RNG) (tx : Transaction) (g1 : RNG)
    (h : genTransaction customers merchants accounts g = some (tx, g1)) :
    (∃ c ∈ customers, tx.customer_id = c.customer_id) ∧
    (∃ m ∈ merchants, tx.merchant_id = m.merchant_id) ∧
    ((∃ acc ∈ accounts, tx.account_id = acc.account_id ∧ acc.customer_id = tx.customer_id) ∨
     (accounts.filter (fun acc => acc.customer_id == tx.customer_id) = [] ∧
      ∃ a0, accounts.head? = some a0 ∧ tx.account_id = a0.account_id)) := by
  unfold genTransaction at h
  rcases hc : randchoice customers g with _ | ⟨customer, gc⟩ <;> rw [hc] at h
  · exact absurd h (by simp)
  dsimp only at h
  rcases hm : randchoice merchants gc with _ | ⟨merchant, gm⟩ <;> rw [hm] at h
  · exact absurd h (by simp)
  dsimp only at h
  by_cases hemp :
      (accounts.filter (fun acc => acc.customer_id == customer.customer_id)).isEmpty = true
  · rw [if_pos hemp] at h
    rcases hh : accounts.head? with _ | a0 <;> rw [hh] at h
    · exact absurd h (by simp)
    dsimp only [Option.map] at h
    simp only [Option.some.injEq, Prod.mk.injEq] at h
    obtain ⟨rfl, -⟩ := h
    refine ⟨⟨customer, randchoice_mem hc, rfl⟩, ⟨merchant, randchoice_mem hm, rfl⟩, ?_⟩
    exact Or.inr ⟨List.isEmpty_iff.mp hemp, a0, rfl, rfl⟩
  · rw [if_neg hemp] at h
    rcases ha : randchoice (accounts.filter (fun acc => acc.customer_id == customer.customer_id)) gm
        with _ | ⟨account, ga⟩ <;> rw [ha] at h
    · exact absurd h (by simp)
    dsimp only at h
    simp only [Option.some.injEq, Prod.mk.injEq] at h
    obtain ⟨rfl, -⟩ := h
    have hmem := randchoice_mem ha
    rw [List.mem_filter] at hmem
    refine ⟨⟨customer, randchoice_mem hc, rfl⟩, ⟨merchant, randchoice_mem hm, rfl⟩, ?_⟩
    exact Or.inl ⟨account, hmem.1, rfl, eq_of_beq hmem.2⟩

theorem genTransaction_total (customers : List Customer) (merchants : List Merchant)
    (accounts : List Account) (hc : customers ≠ []) (hm : merchants ≠ [])
    (ha : accounts ≠ []) (g : RNG) :
    ∃ t g1, genTransaction customers merchants accounts g = some (t, g1) := by
  obtain ⟨customer, gc, h1⟩ := randchoice_total customers g hc
  obtain ⟨merchant, gm, h2⟩ := randchoice_total merchants gc hm
  unfold genTransaction
  rw [h1]
  dsimp only
  rw [h2]
  dsimp only
  by_cases hemp :
      (accounts.filter (fun acc => acc.customer_id == customer.customer_id)).isEmpty = true
  · rw [if_pos hemp]
    cases accounts with
    | nil => exact absurd rfl ha
    | cons a0 rest =>
      dsimp only [List.head?, Option.map]
      exact ⟨_, _, rfl⟩
  · rw [if_neg hemp]
    have hne : accounts.filter (fun acc => acc.customer_id == customer.customer_id) ≠ [] := by
      intro hnil
      exact hemp (by simp [hnil])
    obtain ⟨account, ga, h3⟩ := randchoice_total _ gm hne
    rw [h3]
    dsimp only
    exact ⟨_, _, rfl⟩

theorem genTransactions_length (customers : List Customer) (merchants : List Merchant)
    (accounts : List Account) (n : Nat) (g : RNG) (ts : List Transaction) (g1 : RNG)
    (h : genTransactions customers merchants accounts n g = some (ts, g1)) :
    ts.length = n := by
  induction n generalizing g ts g1 with
  | zero =>
    unfold genTransactions at h
    simp only [Option.some.injEq, Prod.mk.injEq] at h
    obtain ⟨rfl, -⟩ := h
    rfl
  | succ n ih =>
    unfold genTransactions at h
    rcases h1 : genTransaction customers merchants accounts g with _ | ⟨t, gt⟩ <;> rw [h1] at h
    · exact absurd h (by simp)
    dsimp only at h
    rcases h2 : genTransactions customers merchants accounts n gt with _ | ⟨ts2, gt2⟩ <;>
      rw [h2] at h
    · exact absurd h (by simp)
    dsimp only at h
    simp only [Option.some.injEq, Prod.mk.injEq] at h
    obtain ⟨rfl, -⟩ := h
    simp [ih gt ts2 gt2 h2]

theorem genTransactions_mem (customers : List Customer) (merchants : List Merchant)
    (accounts : List Account) (n : Nat) (g : RNG) (ts : List Transaction) (g1 : RNG)
    (h : genTransactions customers merchants accounts n g = some (ts, g1))
    (tx : Transaction) (htx : tx ∈ ts) :
    (∃ c ∈ customers, tx.customer_id = c.customer_id) ∧
    (∃ m ∈ merchants, tx.merchant_id = m.merchant_id) ∧
    ((∃ acc ∈ accounts, tx.account_id = acc.account_id ∧ acc.customer_id = tx.customer_id) ∨
     (accounts.filter (fun acc => acc.customer_id == tx.customer_id) = [] ∧
      ∃ a0, accounts.head? = some a0 ∧ tx.account_id = a0.account_id)) := by
  induction n generalizing g ts g1 with
  | zero =>
    unfold genTransactions at h
    simp only [Option.some.injEq, Prod.mk.injEq] at h
    obtain ⟨rfl, -⟩ := h
    simp at htx
  | succ n ih =>
    unfold genTransactions at h
    rcases h1 : genTransaction customers merchants accounts g with _ | ⟨t, gt⟩ <;> rw [h1] at h
    · exact absurd h (by simp)
    dsimp only at h
    rcases h2 : genTransactions customers merchants accounts n gt with _ | ⟨ts2, gt2⟩ <;>
      rw [h2] at h
    · exact absurd h (by simp)
    dsimp only at h
    simp only [Option.some.injEq, Prod.mk.injEq] at h
    obtain ⟨rfl, -⟩ := h
    rcases List.mem_cons.mp htx with rfl | hmem
    · exact genTransaction_spec customers merchants accounts g tx gt h1
    · exact ih gt ts2 gt2 h2 hmem

theorem genTransactions_total (customers : List Customer) (merchants : List Merchant)
    (accounts : List Account) (hc : customers ≠ []) (hm : merchants ≠ [])
    (ha : accounts ≠ []) (n : Nat) (g : RNG) :
    ∃ ts g1, genTransactions customers merchants accounts n g = some (ts, g1) := by
  induction n generalizing g with
  | zero => exact ⟨[], g, rfl⟩
  | succ n ih =>
    obtain ⟨t, gt, h1⟩ := genTransaction_total customers merchants accounts hc hm ha g
    obtain ⟨ts, g1, h2⟩ := ih gt
    refine ⟨t :: ts, g1, ?_⟩
    unfold genTransactions
    rw [h1]
    dsimp only
    rw [h2]

theorem generate_inv (nc nm nt : Nat) (g : RNG) (d : Dataset) (gf : RNG)
    (h : generate_sample_data nc nm nt g = some (d, gf)) :
    d.customers = (genCustomers nc g).1 ∧
    d.merchants = (genMerchants nm (genCustomers nc g).2).1 ∧
    d.accounts =
      (genAccounts (genCustomers nc g).1 (genMerchants nm (genCustomers nc g).2).2).1 ∧
    genTransactions (genCustomers nc g).1 (genMerchants nm (genCustomers nc g).2).1
      (genAccounts (genCustomers nc g).1 (genMerchants nm (genCustomers nc g).2).2).1 nt
      (genAccounts (genCustomers nc g).1 (genMerchants nm (genCustomers nc g).2).2).2
      = some (d.transactions, gf) := by
  unfold generate_sample_data at h
  dsimp only at h
  rcases ht : genTransactions (genCustomers nc g).1 (genMerchants nm (genCustomers nc g).2).1
      (genAccounts (genCustomers nc g).1 (genMerchants nm (genCustomers nc g).2).2).1 nt
      (genAccounts (genCustomers nc g).1 (genMerchants nm (genCustomers nc g).2).2).2
      with _ | ⟨ts, g4⟩ <;> rw [ht] at h
  · exact absurd h (by simp)
  simp only [Option.some.injEq, Prod.mk.injEq] at h
  obtain ⟨rfl, rfl⟩ := h
  exact ⟨rfl, rfl, rfl, rfl⟩

/-! ## Claims about the dataset generator -/

/-- Claim C1: in every dataset returned by `generate_sample_data`,
every Transaction's `account_id` is the `account_id` of an Account of
the batch whose `customer_id` equals that Transaction's `customer_id`;
in the fallback case, where the batch has no account for the chosen
customer, the Transaction's `account_id` is the `account_id` of the
first account of the entire accounts sequence. -/
theorem generate_transaction_account_consistency
    (nc nm nt : Nat) (g : RNG) (d : Dataset) (gf : RNG)
    (h : generate_sample_data nc nm nt g = some (d, gf))
    (tx : Transaction) (htx : tx ∈ d.transactions) :
    (∃ acc ∈ d.accounts, tx.account_id = acc.account_id ∧ acc.customer_id = tx.customer_id) ∨
    (d.accounts.filter (fun acc => acc.customer_id == tx.customer_id) = [] ∧
     ∃ a0, d.accounts.head? = some a0 ∧ tx.account_id = a0.account_id) := by
  obtain ⟨hcs, hms, haccs, ht⟩ := generate_inv nc nm nt g d gf h
  have hp := genTransactions_mem _ _ _ nt _ _ _ ht tx htx
  rw [← haccs] at hp
  exact hp.2.2

theorem generate_transaction_account_consistency_witness :
    (∃ acc ∈ demoData.accounts,
        demoTx.account_id = acc.account_id ∧ acc.customer_id = demoTx.customer_id) ∨
    (demoData.accounts.filter (fun acc => acc.customer_id == demoTx.customer_id) = [] ∧
     ∃ a0, demoData.accounts.head? = some a0 ∧ demoTx.account_id = a0.account_id) :=
  generate_transaction_account_consistency 1 1 1 g0 demoData demoRun.2 (by rfl)
    demoTx (by decide)

/-- Claim C2: in every dataset returned by `generate_sample_data`,
every Account's `customer_id` equals the `customer_id` of a Customer
present in the same batch. -/
theorem generate_account_customer_fk
    (nc nm nt : Nat) (g : RNG) (d : Dataset) (gf : RNG)
    (h : generate_sample_data nc nm nt g = some (d, gf))
    (a : Account) (ha : a ∈ d.accounts) :
    ∃ c ∈ d.customers, a.customer_id = c.customer_id := by
  obtain ⟨hcs, -, haccs, -⟩ := generate_inv nc nm nt g d gf h
  rw [haccs] at ha
  obtain ⟨c, hcmem, heq, -⟩ := genAccounts_mem _ _ a ha
  rw [← hcs] at hcmem
  exact ⟨c, hcmem, heq⟩

theorem generate_account_customer_fk_witness :
    ∃ c ∈ demoData.customers, demoAccount.customer_id = c.customer_id :=
  generate_account_customer_fk 1 1 1 g0 demoData demoRun.2 (by rfl) demoAccount (by decide)

/-- Claim C3 (what the code actually does): `generate_sample_data`
performs no count validation at all; with `customerCount = 0` (or
`merchantCount = 0`) and a positive `transactionCount` it reaches
`random.choice` on an empty population and aborts with an unhandled
IndexError (modelled as `none`), instead of failing fast with a
ValidationError or returning empty sequences. -/
theorem generate_zero_counts_aborts :
    (∀ (nm nt : Nat) (g : RNG), generate_sample_data 0 nm (nt + 1) g = none) ∧
    generate_sample_data 1 0 1 g0 = none :=
  ⟨fun _ _ _ => rfl, rfl⟩

/-- Claim C6: for positive counts, `generate_sample_data` returns a
dataset of four ordered sequences with exactly `nc` customers, `nm`
merchants and `nt` transactions. -/
theorem generate_counts_exact (nc nm nt : Nat) (g : RNG)
    (hnc : 0 < nc) (hnm : 0 < nm) (_hnt : 0 < nt) :
    ∃ d gf, generate_sample_data nc nm nt g = some (d, gf) ∧
      d.customers.length = nc ∧ d.merchants.length = nm ∧
      d.transactions.length = nt := by
  have hcne : (genCustomers nc g).1 ≠ [] :=
    List.length_pos.mp (by rw [genCustomers_length]; exact hnc)
  have hmne : (genMerchants nm (genCustomers nc g).2).1 ≠ [] :=
    List.length_pos.mp (by rw [genMerchants_length]; exact hnm)
  have hane :
      (genAccounts (genCustomers nc g).1 (genMerchants nm (genCustomers nc g).2).2).1 ≠ [] := by
    refine List.length_pos.mp (lt_of_lt_of_le hnc ?_)
    have hb := genAccounts_length (genCustomers nc g).1
      (genMerchants nm (genCustomers nc g).2).2
    rw [genCustomers_length] at hb
    exact hb.1
  obtain ⟨ts, gf, ht⟩ := genTransactions_total (genCustomers nc g).1
    (genMerchants nm (genCustomers nc g).2).1
    (genAccounts (genCustomers nc g).1 (genMerchants nm (genCustomers nc g).2).2).1
    hcne hmne hane nt
    (genAccounts (genCustomers nc g).1 (genMerchants nm (genCustomers nc g).2).2).2
  refine ⟨{ customers := (genCustomers nc g).1,
            merchants := (genMerchants nm (genCustomers nc g).2).1,
            accounts :=
              (genAccounts (genCustomers nc g).1 (genMerchants nm (genCustomers nc g).2).2).1,
            transactions := ts }, gf, ?_, ?_, ?_, ?_⟩
  · unfold generate_sample_data
    dsimp only
    rw [ht]
  · exact genCustomers_length nc g
  · exact genMerchants_length nm _
  · exact genTransactions_length _ _ _ nt _ ts gf ht

theorem generate_counts_exact_witness :
    (0 < 3 ∧ 0 < 2 ∧ 0 < 10) ∧
    ∃ d gf, generate_sample_data 3 2 10 g0 = some (d, gf) ∧
      d.customers.length = 3 ∧ d.merchants.length = 2 ∧
      d.transactions.length = 10 :=
  ⟨⟨by decide, by decide, by decide⟩,
   generate_counts_exact 3 2 10 g0 (by decide) (by decide) (by decide)⟩

/-- Claim C7: in every dataset returned by `generate_sample_data`
with `nc` requested customers, the accounts sequence has between `nc`
and `3 × nc` entries, each customer contributing 1 to 3 accounts. -/
theorem generate_accounts_length_bounds
    (nc nm nt : Nat) (g : RNG) (d : Dataset) (gf : RNG)
    (h : generate_sample_data nc nm nt g = some (d, gf)) :
    nc ≤ d.accounts.length ∧ d.accounts.length ≤ 3 * nc := by
  obtain ⟨hcs, -, haccs, -⟩ := generate_inv nc nm nt g d gf h
  have hb := genAccounts_length (genCustomers nc g).1 (genMerchants nm (genCustomers nc g).2).2
  rw [genCustomers_length] at hb
  rw [haccs]
  exact hb

theorem generate_accounts_length_bounds_witness :
    1 ≤ demoData.accounts.length ∧ demoData.accounts.length ≤ 3 * 1 :=
  generate_accounts_length_bounds 1 1 1 g0 demoData demoRun.2 (by rfl)

/-- Claim C8: every Customer produced by `generate_sample_data` has a
`risk_score` in [10, 90], hence within the data-model bound of 0–100
(the lower bound 0 holds because the score is a natural number). -/
theorem generate_risk_score_bounds
    (nc nm nt : Nat) (g : RNG) (d : Dataset) (gf : RNG)
    (h : generate_sample_data nc nm nt g = some (d, gf))
    (c : Customer) (hc : c ∈ d.customers) :
    10 ≤ c.risk_score ∧ c.risk_score ≤ 90 ∧ c.risk_score ≤ 100 := by
  obtain ⟨hcs, -, -, -⟩ := generate_inv nc nm nt g d gf h
  rw [hcs] at hc
  obtain ⟨h1, h2⟩ := genCustomers_risk nc g c hc
  exact ⟨h1, h2, h2.trans (by norm_num)⟩

theorem generate_risk_score_bounds_witness :
    10 ≤ demoCustomer.risk_score ∧ demoCustomer.risk_score ≤ 90 ∧
    demoCustomer.risk_score ≤ 100 :=
  generate_risk_score_bounds 1 1 1 g0 demoData demoRun.2 (by rfl) demoCustomer (by decide)

/-- Claim C9: every Account produced by `generate_sample_data` copies
its `opening_date` from the `account_opening_date` of the Customer
that generated it, so the account's opening date is ≥ the owning
customer's account-opening date. -/
theorem generate_account_opening_date
    (nc nm nt : Nat) (g : RNG) (d : Dataset) (gf : RNG)
    (h : generate_sample_data nc nm nt g = some (d, gf))
    (a : Account) (ha : a ∈ d.accounts) :
    ∃ c ∈ d.customers, a.customer_id = c.customer_id ∧
      a.opening_date = c.account_opening_date ∧
      c.account_opening_date ≤ a.opening_date := by
  obtain ⟨hcs, -, haccs, -⟩ := generate_inv nc nm nt g d gf h
  rw [haccs] at ha
  obtain ⟨c, hcmem, heq, hdate⟩ := genAccounts_mem _ _ a ha
  rw [← hcs] at hcmem
  exact ⟨c, hcmem, heq, hdate, le_of_eq hdate.symm⟩

theorem generate_account_opening_date_witness :
    ∃ c ∈ demoData.customers, demoAccount.customer_id = c.customer_id ∧
      demoAccount.opening_date = c.account_opening_date ∧
      c.account_opening_date ≤ demoAccount.opening_date :=
  generate_account_opening_date 1 1 1 g0 demoData demoRun.2 (by rfl) demoAccount (by decide)

/-! ## Claims about the gateway -/

theorem execute_query_log (C : Type) (driver : Driver C) (mgr : SnowflakeManager C)
    (conn : C) (h : mgr.connection = some conn) (q : String) (fetch : Bool) :
    (SnowflakeManager.execute_query driver mgr q fetch).2 = [q] := by
  unfold SnowflakeManager.execute_query
  rw [h]
  dsimp only
  cases driver conn q with
  | error e => rfl
  | ok r => cases fetch <;> rfl

/-- Claim C4 is false of the code: the `/query/execute` route does not
forward the caller's SQL verbatim. For the caller string "SELECT 1"
with the model's default limit 1000, the string handed to the driver
is "SELECT 1 LIMIT 1000". -/
theorem query_route_not_verbatim_cex :
    (execute_query_route okDriver mgrConnected
        { sql_query := "SELECT 1", limit := some 1000 }).2 ≠ ["SELECT 1"] ∧
    (execute_query_route okDriver mgrConnected
        { sql_query := "SELECT 1", limit := some 1000 }).2 = ["SELECT 1 LIMIT 1000"] := by
  constructor
  · decide
  · decide

/-- Claim C4 amended: for every connected gateway the route forwards
exactly one string to the driver — the caller's SQL stripped of
surrounding whitespace, with " LIMIT {limit}" appended when the limit
is truthy and "LIMIT" does not occur in the uppercased stripped
string; nothing else is altered, validated or sanitized, and the
manager hands that string to the driver verbatim. -/
theorem query_route_forwards_transformed (C : Type) (driver : Driver C)
    (mgr : SnowflakeManager C) (conn : C) (h : mgr.connection = some conn)
    (request : QueryRequest) :
    (execute_query_route driver mgr request).2 =
      [if limitTruthy request.limit && !(upperHasLIMIT (pyStrip request.sql_query)) then
         pyStrip request.sql_query ++ limitSuffix request.limit
       else pyStrip request.sql_query] := by
  unfold execute_query_route
  rw [h]
  dsimp only
  exact execute_query_log C driver mgr conn h _ true

theorem query_route_forwards_transformed_witness :
    (execute_query_route okDriver mgrConnected
        { sql_query := "  SELECT * FROM customers  ", limit := some 50 }).2 =
      [if limitTruthy (some 50) &&
          !(upperHasLIMIT (pyStrip "  SELECT * FROM customers  ")) then
         pyStrip "  SELECT * FROM customers  " ++ limitSuffix (some 50)
       else pyStrip "  SELECT * FROM customers  "] :=
  query_route_forwards_transformed Nat okDriver mgrConnected 7 rfl
    { sql_query := "  SELECT * FROM customers  ", limit := some 50 }

/-- Claim C5: `execute_query` and `load_dataframe` on a gateway whose
stored connection is `None` fail immediately with HTTP 400
"No active Snowflake connection" — for every driver oracle, query,
fetch flag and payload — and forward nothing to the driver (the call
list is empty); neither operation touches the stored state, so no
implicit reconnect is attempted. -/
theorem disconnected_ops_fail_fast (C D : Type) (driver : Driver C) (writer : Writer C D)
    (mgr : SnowflakeManager C) (h : mgr.connection = none)
    (query : String) (fetch : Bool) (df : D) (tbl mode : String) :
    SnowflakeManager.execute_query driver mgr query fetch =
      (Except.error { status_code := 400, detail := "No active Snowflake connection" }, []) ∧
    SnowflakeManager.load_dataframe writer mgr df tbl mode =
      (Except.error { status_code := 400, detail := "No active Snowflake connection" }, []) := by
  unfold SnowflakeManager.execute_query SnowflakeManager.load_dataframe
  rw [h]
  exact ⟨rfl, rfl⟩

theorem disconnected_ops_fail_fast_witness :
    SnowflakeManager.execute_query okDriver mgrDisconnected "SELECT 1" true =
      (Except.error { status_code := 400, detail := "No active Snowflake connection" }, []) ∧
    SnowflakeManager.load_dataframe okWriter mgrDisconnected 0 "customers" "replace" =
      (Except.error { status_code := 400, detail := "No active Snowflake connection" }, []) :=
  disconnected_ops_fail_fast Nat Nat okDriver okWriter mgrDisconnected rfl
    "SELECT 1" true 0 "customers" "replace"

/-- Claim C10: `connect` is not atomic on failure. When the driver
rejects the new parameters, the call errors with HTTP 400, the stored
connection handle is left unchanged, yet `connection_params` has
already been overwritten with the failing parameters — so on a
previously live gateway the status route still reports "connected"
while naming the new, never-connected database. -/
theorem connect_failure_not_atomic (C : Type)
    (drv : SnowflakeConnection → Except String C) (mgr : SnowflakeManager C)
    (p : SnowflakeConnection) (e : String) (h : drv p = Except.error e) :
    (SnowflakeManager.connect drv mgr p).1 =
      Except.error { status_code := 400, detail := "Snowflake connection failed: " ++ e } ∧
    (SnowflakeManager.connect drv mgr p).2.connection = mgr.connection ∧
    (SnowflakeManager.connect drv mgr p).2.connection_params = some p ∧
    ∀ conn, mgr.connection = some conn →
      snowflake_status (SnowflakeManager.connect drv mgr p).2 =
        some { status := "connected", database := some p.database } := by
  unfold SnowflakeManager.connect
  rw [h]
  dsimp only
  refine ⟨rfl, rfl, rfl, ?_⟩
  intro conn hconn
  unfold snowflake_status
  dsimp only
  rw [hconn]
  rfl

theorem connect_failure_not_atomic_witness :
    (SnowflakeManager.connect failConnect mgrConnected newParams).2.connection =
      mgrConnected.connection ∧
    (SnowflakeManager.connect failConnect mgrConnected newParams).2.connection_params =
      some newParams ∧
    snowflake_status (SnowflakeManager.connect failConnect mgrConnected newParams).2 =
      some { status := "connected", database := some newParams.database } :=
  have h := connect_failure_not_atomic Nat failConnect mgrConnected newParams
    "bad credentials" rfl
  ⟨h.2.1, h.2.2.1, h.2.2.2 7 rfl⟩

end Snowflake
